import Mathlib

/-!
# Verification of the Part 3 model-building notebook

A shallow embedding of `Part_3_Model_Building.ipynb`: the notebook is a
linear PySpark script that loads a sampled flight table, engineers a
departure-hour column, builds three feature pipelines, splits the data,
fits three classifiers, and runs a grid search with cross-validation.
The definitions below are translated cell by cell from the source; the
theorems settle the specification claims about it.
-/

set_option autoImplicit false

namespace FlightML

/-! ## Column expressions

The feature-engineering cell builds Spark column expressions out of
`col`, `lit`, `concat`, `when(length(c) == 4, t).otherwise(e)` and
`.cast('double')`.  We embed exactly those constructors. -/

inductive Col where
  | col (name : String)
  | lit (s : String)
  | concat (a b : Col)
  | whenLenEq (c : Col) (n : Nat) (thenBranch elseBranch : Col)
  | castDouble (c : Col)
  deriving DecidableEq, Repr

/-- A dataframe schema: each column name bound to the expression (over the
raw loaded row) that produces it.  Loaded columns are bound to `Col.col`
of their own name. -/
abbrev DF := List (String × Col)

/-- Spark `withColumn`: replace the column if the name exists, else append. -/
def withColumn : DF → String → Col → DF
  | [], name, e => [(name, e)]
  | p :: rest, name, e =>
      if p.1 = name then (name, e) :: rest else p :: withColumn rest name e

def lookupCol (df : DF) (name : String) : Option Col :=
  (df.find? (fun p => p.1 = name)).map Prod.snd

def columnsOf (df : DF) : List String := df.map Prod.fst

/-- The columns of `after` that are not columns of `before`. -/
def newColumns (after before : DF) : List String :=
  (columnsOf after).filter (fun c => ¬ c ∈ columnsOf before)

/-- The first `withColumn` expression of the feature-engineering cell:
`when(length(col("CRS_DEP_TIME")) == 4, col("CRS_DEP_TIME"))
 .otherwise(concat(lit("0"), col("CRS_DEP_TIME")))`. -/
def crsDepHourPadded : Col :=
  .whenLenEq (.col "CRS_DEP_TIME") 4 (.col "CRS_DEP_TIME")
    (.concat (.lit "0") (.col "CRS_DEP_TIME"))

/-- The feature-engineering cell: two successive `withColumn` calls, both
targeting `CRS_DEP_HOUR`; the second assigns
`col('CRS_DEP_TIME').cast('double')`. -/
def featureEngineer (df : DF) : DF :=
  withColumn (withColumn df "CRS_DEP_HOUR" crsDepHourPadded)
    "CRS_DEP_HOUR" (.castDouble (.col "CRS_DEP_TIME"))

/-- A cell value: a raw string, or the result of a cast to double
(`none` models a failed cast, Spark's null). -/
inductive Val where
  | str (s : String)
  | dbl (q : Option ℚ)
  deriving DecidableEq

/-- Evaluate a column expression on one raw row.  `parse` is the engine's
string-to-double conversion, `row` the raw string value of each loaded
column. -/
def evalCol (parse : String → Option ℚ) (row : String → String) : Col → Val
  | .col n => .str (row n)
  | .lit s => .str s
  | .concat a b =>
      match evalCol parse row a, evalCol parse row b with
      | .str x, .str y => .str (x ++ y)
      | _, _ => .str ""
  | .whenLenEq c n t e =>
      match evalCol parse row c with
      | .str x => if x.length = n then evalCol parse row t else evalCol parse row e
      | .dbl _ => evalCol parse row e
  | .castDouble c =>
      match evalCol parse row c with
      | .str x => .dbl (parse x)
      | v => v

/-- The representative loaded schema: the columns of `smaller_flight_table`
that the notebook reads (categoricals, numerics, the raw departure time
and the label). -/
def loadedColumns : List String :=
  ["OP_CARRIER", "ORIGIN", "DEST", "CRS_DEP_TIME", "CRS_ELAPSED_TIME",
   "DISTANCE", "WEEK", "CANCELLED"]

/-- The loaded dataframe: every loaded column bound to its own raw value. -/
def flight_df : DF := loadedColumns.map (fun n => (n, Col.col n))

/-! ## Pipeline stages

The notebook builds its feature pipelines from three SparkML stage kinds:
`StringIndexer`, `OneHotEncoderEstimator` and `VectorAssembler`. -/

inductive Stage where
  | stringIndexer (inputCol outputCol handleInvalid : String)
  | oneHotEncoderEstimator (inputCols outputCols : List String)
  | vectorAssembler (inputCols : List String) (outputCol : String)
  deriving DecidableEq, Repr

def numeric_cols : List String :=
  ["CRS_ELAPSED_TIME", "DISTANCE", "WEEK", "CRS_DEP_HOUR"]

def op_carrier_indexer : Stage :=
  .stringIndexer "OP_CARRIER" "OP_CARRIER_INDEXED" "keep"

def origin_indexer : Stage :=
  .stringIndexer "ORIGIN" "ORIGIN_INDEXED" "keep"

def dest_indexer : Stage :=
  .stringIndexer "DEST" "DEST_INDEXED" "keep"

def indexer_encoder : Stage :=
  .oneHotEncoderEstimator
    ["OP_CARRIER_INDEXED", "ORIGIN_INDEXED", "DEST_INDEXED"]
    ["OP_CARRIER_ENCODED", "ORIGIN_ENCODED", "DEST_ENCODED"]

/-- `input_cols` of the first pipeline build: the encoded categoricals
followed by the numeric columns. -/
def encoded_input_cols : List String :=
  ["OP_CARRIER_ENCODED", "ORIGIN_ENCODED", "DEST_ENCODED"] ++ numeric_cols

/-- `input_cols` of the first rebuild: the indexed categoricals followed
by the numeric columns. -/
def indexed_input_cols : List String :=
  ["OP_CARRIER_INDEXED", "ORIGIN_INDEXED", "DEST_INDEXED"] ++ numeric_cols

/-- The assembler of the initial pipeline. -/
def assembler1 : Stage := .vectorAssembler encoded_input_cols "features"

/-- The assembler of the first rebuild (indexed features). -/
def assembler2 : Stage := .vectorAssembler indexed_input_cols "features"

/-- The assembler of the second rebuild (back to encoded features). -/
def assembler3 : Stage := .vectorAssembler encoded_input_cols "features"

/-- The initial pipeline (the `Pipeline(stages=[...])` of the encoding cell). -/
def pipeline1 : List Stage :=
  [op_carrier_indexer, origin_indexer, dest_indexer, indexer_encoder, assembler1]

/-- The first rebuild, for the tree classifiers: no one-hot encoder. -/
def pipeline2 : List Stage :=
  [op_carrier_indexer, origin_indexer, dest_indexer, assembler2]

/-- The second rebuild, for the grid search: encoder restored. -/
def pipeline3 : List Stage :=
  [op_carrier_indexer, origin_indexer, dest_indexer, indexer_encoder, assembler3]

/-- Every pipeline the notebook builds, in program order. -/
def builtPipelines : List (List Stage) := [pipeline1, pipeline2, pipeline3]

def isIndexer : Stage → Bool
  | .stringIndexer _ _ _ => true
  | _ => false

def isEncoder : Stage → Bool
  | .oneHotEncoderEstimator _ _ => true
  | _ => false

def isAssembler : Stage → Bool
  | .vectorAssembler _ _ => true
  | _ => false

def indexerInput : Stage → Option String
  | .stringIndexer i _ _ => some i
  | _ => none

def assemblerOutput : Stage → Option String
  | .vectorAssembler _ o => some o
  | _ => none

/-- The ordering property claimed of every pipeline: the three string
indexers (for OP_CARRIER, ORIGIN, DEST) first, then any one-hot encoders,
then exactly one vector assembler with output column `features`, last. -/
def stagesOrdered (p : List Stage) : Bool :=
  let idx := p.takeWhile isIndexer
  let rest := p.dropWhile isIndexer
  let tail := rest.dropWhile isEncoder
  (idx.filterMap indexerInput = ["OP_CARRIER", "ORIGIN", "DEST"]) &&
  match tail with
  | [a] => isAssembler a && (assemblerOutput a = some "features")
  | _ => false

/-! ## Models, the parameter grid and the cross-validator -/

inductive ModelType where
  | logisticRegression
  | randomForest
  | gbt
  deriving DecidableEq, Repr

/-- `lrModel.maxIter` candidate values of the grid. -/
def grid_maxIter : List ℚ := [5, 10, 100]

/-- `lrModel.regParam` candidate values of the grid. -/
def grid_regParam : List ℚ := [0, mkRat 1 100, mkRat 1 10]

/-- `lrModel.elasticNetParam` candidate values of the grid. -/
def grid_elasticNetParam : List ℚ := [0, mkRat 1 2, 1]

/-- `ParamGridBuilder().addGrid(...)...build()`: the cartesian product of
the added value lists, one named binding per parameter. -/
def buildGrid (grids : List (String × List ℚ)) : List (List (String × ℚ)) :=
  grids.foldr
    (fun g acc => (g.2).flatMap (fun v => acc.map (fun combo => (g.1, v) :: combo)))
    [[]]

/-- The `paramGrid` of the tuning cell. -/
def paramGrid : List (List (String × ℚ)) :=
  buildGrid
    [("maxIter", grid_maxIter), ("regParam", grid_regParam),
     ("elasticNetParam", grid_elasticNetParam)]

/-- The estimator the tuning cell hands to `CrossValidator`: the variable
`lr` (the logistic-regression classifier), written as a function of the
three area-under-ROC evaluation results to record that the source makes
no use of them in the choice. -/
def cvEstimatorGiven (_aucLR _aucRF _aucGBT : ℚ) : ModelType :=
  ModelType.logisticRegression

/-- Spec-side definition, from the spec words "the best-performing model
type": the classifier whose test-set area-under-ROC was highest among the
three. -/
def bestByAUC (aucLR aucRF aucGBT : ℚ) : ModelType :=
  if aucRF ≤ aucLR ∧ aucGBT ≤ aucLR then ModelType.logisticRegression
  else if aucGBT ≤ aucRF then ModelType.randomForest
  else ModelType.gbt

/-! ## The notebook as a step trace -/

/-- Which dataframe a fit or score acts on: the full transformed data, or
the train / test half produced by the numbered `randomSplit` call. -/
inductive DataRef where
  | full
  | train (split : Nat)
  | test (split : Nat)
  deriving DecidableEq, Repr

/-- One notebook step, carrying the parameters relevant to the claims. -/
inductive Step where
  | startSession
  | loadAndSample
  | featureEngineering
  | buildPipeline (stages : List Stage)
  | fitAndTransform (stages : List Stage)
  | randomSplit (idx : Nat) (weights : List ℚ) (seed : Option Nat)
  | fitClassifier (m : ModelType) (data : DataRef)
  | scoreModel (m : ModelType) (data : DataRef) (labelCol metricName : String)
  | comment (text : String)
  | saveModel (path : String)
  | crossValidatorFit (estimator : ModelType) (folds : Nat) (data : DataRef)
  | scoreCrossValidated (data : DataRef) (labelCol metricName : String)
  | plotROC
  deriving DecidableEq, Repr

/-- The notebook, cell by cell.  The only save statement is commented out
and therefore appears as a `comment` step; each `randomSplit` is written
with the split weights and (absent) seed of the call. -/
def notebook : List Step :=
  [.startSession,
   .loadAndSample,
   .featureEngineering,
   .buildPipeline pipeline1,
   .fitAndTransform pipeline1,
   .randomSplit 1 [mkRat 7 10, mkRat 3 10] none,
   .fitClassifier .logisticRegression (.train 1),
   .scoreModel .logisticRegression (.test 1) "CANCELLED" "areaUnderROC",
   .comment "pipelineModel.write().overwrite().save to the s3a models path",
   .buildPipeline pipeline2,
   .fitAndTransform pipeline2,
   .randomSplit 2 [mkRat 7 10, mkRat 3 10] none,
   .fitClassifier .randomForest (.train 2),
   .scoreModel .randomForest (.test 2) "CANCELLED" "areaUnderROC",
   .fitClassifier .gbt (.train 2),
   .scoreModel .gbt (.test 2) "CANCELLED" "areaUnderROC",
   .buildPipeline pipeline3,
   .fitAndTransform pipeline3,
   .randomSplit 3 [mkRat 7 10, mkRat 3 10] none,
   .crossValidatorFit .logisticRegression 5 (.train 3),
   .scoreCrossValidated (.test 3) "CANCELLED" "areaUnderROC",
   .plotROC]

/-- The stage lists of the `buildPipeline` steps of a trace. -/
def pipelinesBuilt (tr : List Step) : List (List Stage) :=
  tr.filterMap (fun s => match s with
    | .buildPipeline p => some p
    | _ => none)

/-- The weight lists of the `randomSplit` steps of a trace. -/
def splitWeightsOf (tr : List Step) : List (List ℚ) :=
  tr.filterMap (fun s => match s with
    | .randomSplit _ w _ => some w
    | _ => none)

/-- The seed arguments of the `randomSplit` steps of a trace. -/
def splitSeedsOf (tr : List Step) : List (Option Nat) :=
  tr.filterMap (fun s => match s with
    | .randomSplit _ _ seed => some seed
    | _ => none)

/-- The `numFolds` arguments of the `CrossValidator` fits of a trace. -/
def cvFoldsOf (tr : List Step) : List Nat :=
  tr.filterMap (fun s => match s with
    | .crossValidatorFit _ folds _ => some folds
    | _ => none)

/-- Keep only pipeline builds and splits, to state how they interleave. -/
def isBuildOrSplit : Step → Bool
  | .buildPipeline _ => true
  | .randomSplit _ _ _ => true
  | _ => false

/-- The seed the engine actually uses for a split: the seed argument when
one is passed, otherwise a value the engine draws at run time (modelled
from the library's documented seeding rule for a seedless `randomSplit`). -/
def effectiveSeed (seed : Option Nat) (engineDraw : Nat) : Nat :=
  seed.getD engineDraw

/-- Object-store effect of one step: only a (live) `saveModel` writes a
path; every other step, comments included, leaves the store alone. -/
def stepStore (store : List String) : Step → List String
  | .saveModel path => path :: store
  | _ => store

/-- Object-store contents after running a whole trace. -/
def runStore (tr : List Step) (store : List String) : List String :=
  tr.foldl stepStore store

def isSave : Step → Bool
  | .saveModel _ => true
  | _ => false

end FlightML

namespace FlightML

/-! ## Supporting lemmas -/

theorem lookupCol_withColumn_self (df : DF) (name : String) (e : Col) :
    lookupCol (withColumn df name e) name = some e := by
  induction df with
  | nil => simp [withColumn, lookupCol, List.find?]
  | cons p rest ih =>
      by_cases h : p.1 = name
      · simp [withColumn, h, lookupCol, List.find?]
      · simpa [withColumn, h, lookupCol, List.find?] using ih

theorem columnsOf_withColumn (df : DF) (name : String) (e : Col) :
    columnsOf (withColumn df name e) =
      if name ∈ columnsOf df then columnsOf df else columnsOf df ++ [name] := by
  induction df with
  | nil => simp [withColumn, columnsOf]
  | cons p rest ih =>
      by_cases h : p.1 = name
      · simp [withColumn, h, columnsOf]
      · have hne : name ≠ p.1 := fun hn => h hn.symm
        simp [withColumn, h, columnsOf, List.mem_cons, hne] at ih ⊢
        by_cases hm : name ∈ List.map Prod.fst rest
        · simp only [hm, if_true] at ih
          simp [hm, ih]
        · simp only [hm, if_false] at ih
          simp [hm, ih, hne]

/-! ## Claim theorems -/

/-- Claim C2 (code evaluation): on the loaded schema, the
feature-engineering step adds exactly one new column, `CRS_DEP_HOUR` —
not two as the notebook's own markdown ("these two new columns are cast
using cast('double')") and the spec state: both `withColumn` calls target
the same column name. -/
theorem c2_feature_engineering_adds_one_column :
    newColumns (featureEngineer flight_df) flight_df = ["CRS_DEP_HOUR"] ∧
    (newColumns (featureEngineer flight_df) flight_df).length = 1 ∧
    ¬ (newColumns (featureEngineer flight_df) flight_df).length = 2 := by
  refine ⟨?_, ?_, ?_⟩ <;> decide

/-- Claim C3: for every input dataframe and every row, the final
`CRS_DEP_HOUR` expression is exactly `col('CRS_DEP_TIME').cast('double')`
— the second `withColumn` overwrites the first, so its value on any row
is the parsed raw `CRS_DEP_TIME`, independent of the zero-padding
expression. -/
theorem c3_dep_hour_overwritten (df : DF) (parse : String → Option ℚ)
    (row : String → String) :
    lookupCol (featureEngineer df) "CRS_DEP_HOUR"
      = some (.castDouble (.col "CRS_DEP_TIME")) ∧
    (lookupCol (featureEngineer df) "CRS_DEP_HOUR").map (evalCol parse row)
      = some (.dbl (parse (row "CRS_DEP_TIME"))) := by
  have h := lookupCol_withColumn_self
    (withColumn df "CRS_DEP_HOUR" crsDepHourPadded) "CRS_DEP_HOUR"
    (.castDouble (.col "CRS_DEP_TIME"))
  exact ⟨h, by rw [featureEngineer, h]; rfl⟩

/-- Claim C1 counterexample: at evaluation results where the
gradient-boosted tree scored highest (LR 1/2, RF 1/2, GBT 9/10), the
estimator handed to `CrossValidator` is not the best-performing model
type: the source hands it the logistic-regression classifier `lr`. -/
theorem c1_estimator_counterexample :
    cvEstimatorGiven (mkRat 1 2) (mkRat 1 2) (mkRat 9 10)
      ≠ bestByAUC (mkRat 1 2) (mkRat 1 2) (mkRat 9 10) := by
  decide

/-- Claim C1 (amended): the estimator handed to `CrossValidator` is the
logistic-regression classifier regardless of the three area-under-ROC
results; it coincides with the best-performing model type exactly in runs
where logistic regression scored highest. -/
theorem c1_estimator_hardcoded_lr :
    (∀ a b c : ℚ, cvEstimatorGiven a b c = ModelType.logisticRegression) ∧
    (∀ a b c : ℚ, bestByAUC a b c = cvEstimatorGiven a b c ↔
      bestByAUC a b c = ModelType.logisticRegression) ∧
    Step.crossValidatorFit ModelType.logisticRegression 5 (.train 3) ∈ notebook := by
  exact ⟨fun a b c => rfl, fun a b c => Iff.rfl, by decide⟩

/-- Claim C4: every pipeline the notebook builds lists the three string
indexers (OP_CARRIER, ORIGIN, DEST) first, any one-hot encoder after all
indexers, and the vector assembler producing `features` last. -/
theorem c4_stage_order : ∀ p ∈ builtPipelines, stagesOrdered p = true := by
  decide

/-- Witness for C4 at the initial pipeline. -/
theorem c4_stage_order_witness : stagesOrdered pipeline1 = true :=
  c4_stage_order pipeline1 (by decide)

/-- Claim C5: the parameter grid is the cartesian product of three
three-value lists for maxIter, regParam and elasticNetParam — 27 distinct
combinations — and the one cross-validator fit uses 5 folds. -/
theorem c5_param_grid :
    paramGrid.length = 27 ∧
    grid_maxIter.length = 3 ∧ grid_regParam.length = 3 ∧
    grid_elasticNetParam.length = 3 ∧
    paramGrid.Nodup ∧
    paramGrid.all
      (fun combo => combo.map Prod.fst ==
        ["maxIter", "regParam", "elasticNetParam"]) = true ∧
    cvFoldsOf notebook = [5] := by
  refine ⟨?_, ?_, ?_, ?_, ?_, ?_, ?_⟩ <;> decide

/-- Claim C6: after the initial pipeline the notebook rebuilds it exactly
twice; the first rebuild is the initial pipeline with the one-hot encoder
removed and the assembler switched to the *_INDEXED inputs, the second
restores the encoder and the encoded inputs, stage for stage equal to the
initial pipeline. -/
theorem c6_pipeline_rebuilds :
    pipelinesBuilt notebook = [pipeline1, pipeline2, pipeline3] ∧
    (pipelinesBuilt notebook).drop 1 = [pipeline2, pipeline3] ∧
    pipeline2.filter isEncoder = [] ∧
    pipeline2 = (pipeline1.filter (fun s => ! isEncoder s)).map
      (fun s => if isAssembler s then assembler2 else s) ∧
    assembler2 = .vectorAssembler indexed_input_cols "features" ∧
    pipeline3 = pipeline1 := by
  refine ⟨?_, ?_, ?_, ?_, ?_, ?_⟩ <;> decide

/-- Claim C7: every `randomSplit` call carries the weights [0.7, 0.3],
and restricted to pipeline builds and splits the trace strictly
alternates build, split, build, split, build, split. -/
theorem c7_split_weights :
    splitWeightsOf notebook = [[mkRat 7 10, mkRat 3 10], [mkRat 7 10, mkRat 3 10], [mkRat 7 10, mkRat 3 10]] ∧
    notebook.filter isBuildOrSplit =
      [.buildPipeline pipeline1, .randomSplit 1 [mkRat 7 10, mkRat 3 10] none,
       .buildPipeline pipeline2, .randomSplit 2 [mkRat 7 10, mkRat 3 10] none,
       .buildPipeline pipeline3, .randomSplit 3 [mkRat 7 10, mkRat 3 10] none] := by
  exact ⟨by decide, by decide⟩

/-- Claim C8: each classifier type is fitted on the training half of a
split and scored on the held-out test half of the same split with the
area-under-ROC metric against the CANCELLED label (LR on split 1, RF and
GBT on split 2). -/
theorem c8_fit_and_score :
    (Step.fitClassifier .logisticRegression (.train 1) ∈ notebook ∧
     Step.scoreModel .logisticRegression (.test 1) "CANCELLED" "areaUnderROC"
       ∈ notebook) ∧
    (Step.fitClassifier .randomForest (.train 2) ∈ notebook ∧
     Step.scoreModel .randomForest (.test 2) "CANCELLED" "areaUnderROC"
       ∈ notebook) ∧
    (Step.fitClassifier .gbt (.train 2) ∈ notebook ∧
     Step.scoreModel .gbt (.test 2) "CANCELLED" "areaUnderROC" ∈ notebook) := by
  decide

/-- Claim C9: all three `randomSplit` calls omit the seed, so the seed
the engine uses is its own run-time draw (a seeded call would be
deterministic, a seedless one varies with the draw); and the
cross-validated model is scored on the test half of split 3, not the
split-1 test set on which the original logistic-regression model was
scored. -/
theorem c9_seedless_splits :
    splitSeedsOf notebook = [none, none, none] ∧
    (∀ s e₁ e₂ : Nat, effectiveSeed (some s) e₁ = effectiveSeed (some s) e₂) ∧
    effectiveSeed none 0 ≠ effectiveSeed none 1 ∧
    Step.scoreCrossValidated (.test 3) "CANCELLED" "areaUnderROC" ∈ notebook ∧
    Step.scoreModel .logisticRegression (.test 1) "CANCELLED" "areaUnderROC"
      ∈ notebook ∧
    DataRef.test 3 ≠ DataRef.test 1 := by
  exact ⟨by decide, fun s e₁ e₂ => rfl, by decide, by decide, by decide, by decide⟩

/-- Claim C10: the notebook contains no live save step — the single save
statement survives only as a comment — so running the whole trace leaves
any object store exactly as it was. -/
theorem c10_no_persistence :
    (∀ store : List String, runStore notebook store = store) ∧
    notebook.filter isSave = [] ∧
    Step.comment "pipelineModel.write().overwrite().save to the s3a models path"
      ∈ notebook := by
  exact ⟨fun store => rfl, by decide, by decide⟩

end FlightML
